import Mathlib

/-!
gohotdraw: the XGB graphics backend (graphics.go)

A shallow embedding of `XGBGraphics`, the backend that speaks the X11 wire
protocol through the `xgb` binding, and theorems about its colour scaling,
its rectangle conversion, the order of the requests it sends and what it does
when a round trip fails.

The `xgb` binding and the display server are outside the repository.  They are
an explicit parameter (`Transport`): what `Dial` answers, which identifiers
`NewId` hands out, and what the two blocking round trips (`AllocColor`,
`GetGeometry`) answer, as Go result pairs `(reply, err)` in which either part
may be nil.  Every request the backend hands to the connection is appended to
`World.requests`, oldest first, so the wire traffic is observable.
-/

namespace Gohotdraw

/-! ## Machine integers -/

/-- Go conversion `uint16(n)` of an integer: the low 16 bits. -/
def toUint16 (n : Int) : Nat := (n % 65536).toNat

/-- Go conversion `int16(n)` of an integer: the low 16 bits read as two's complement. -/
def toInt16 (n : Int) : Int := (n + 32768) % 65536 - 32768

/-- Go `v << s` on a `uint16` operand: the shift, cut to 16 bits. -/
def shl16 (v s : Nat) : Nat := (v * 2 ^ s) % 65536

/-- Go `v >> s` on an unsigned operand. -/
def shr16 (v s : Nat) : Nat := v / 2 ^ s

/-! ## Constants -/

/-- Source constant `DEFAULT_X int16 = 50`. -/
def DEFAULT_X : Int := 50
/-- Source constant `DEFAULT_Y int16 = 50`. -/
def DEFAULT_Y : Int := 50
/-- Source constant `DEFAULT_WIDTH uint16 = 400`. -/
def DEFAULT_WIDTH : Nat := 400
/-- Source constant `DEFAULT_HEIGHT uint16 = 350`. -/
def DEFAULT_HEIGHT : Nat := 350

/-- Value mask bit `xgb.GCForeground` of the X11 core protocol. -/
def GCForeground : Nat := 4
/-- Value mask bit `xgb.GCBackground` of the X11 core protocol. -/
def GCBackground : Nat := 8
/-- Value mask bit `xgb.CWBackPixel` of the X11 core protocol. -/
def CWBackPixel : Nat := 2
/-- Value mask bit `xgb.CWEventMask` of the X11 core protocol. -/
def CWEventMask : Nat := 2048
/-- Window class `xgb.WindowClassCopyFromParent` of the X11 core protocol. -/
def WindowClassCopyFromParent : Nat := 0

/-! ## Data model -/

/-- The type `xgb.Id`, a resource identifier (a `uint32`). -/
abbrev Id := Nat

/-- The wire rectangle `xgb.Rectangle{X int16, Y int16, Width uint16, Height uint16}`. -/
structure XRectangle where
  X : Int
  Y : Int
  Width : Nat
  Height : Nat
deriving DecidableEq, Repr

/-- Modelled from the spec: the declaration of `Rectangle` is not in the source
files at hand; it is the value object `{x, y, width, height}` in window-local
coordinates, and graphics.go reads its fields `X`, `Y`, `Width`, `Height` as
`int`. -/
structure Rectangle where
  X : Int
  Y : Int
  Width : Int
  Height : Int
deriving DecidableEq, Repr

/-- Modelled from the spec: the declaration of `Dimension` is not in the source
files at hand; it is the snapshot `{width, height}`, built in graphics.go by
the positional literal `Dimension{int(reply.Width), int(reply.Height)}`. -/
structure Dimension where
  Width : Int
  Height : Int
deriving DecidableEq, Repr

/-- An `os.Error` value, told by the text its `String()` gives. -/
structure OsError where
  msg : String
deriving DecidableEq, Repr

/-- The reply `xgb.AllocColorReply`; the backend reads only `Pixel`. -/
structure AllocColorReply where
  Pixel : Nat
deriving DecidableEq, Repr

/-- The reply `xgb.GetGeometryReply`: position and size of a drawable. -/
structure GetGeometryReply where
  X : Int
  Y : Int
  Width : Nat
  Height : Nat
deriving DecidableEq, Repr

/-- What `DefaultScreen()` exposes of the connection set-up. -/
structure Screen where
  Root : Id
  RootVisual : Id
  DefaultColormap : Id
deriving DecidableEq, Repr

/-- An open `xgb.Conn`, as far as the backend reads it. -/
structure Conn where
  DefaultScreen : Screen
deriving DecidableEq, Repr

/-- The requests the backend hands to the connection, with the arguments of the
`xgb` call of the same name, in argument order. -/
inductive Request where
  | CreateWindow (depth : Nat) (wid parent : Id) (x y : Int) (width height : Nat)
      (borderWidth cls : Nat) (visual : Id) (valueMask : Nat) (values : List Nat)
  | CreateGC (cid drawable : Id) (valueMask : Nat) (values : List Nat)
  | MapWindow (wid : Id)
  | UnmapWindow (wid : Id)
  | ChangeWindowAttributes (wid : Id) (valueMask : Nat) (values : List Nat)
  | ChangeGC (gc : Id) (valueMask : Nat) (values : List Nat)
  | AllocColor (cmap : Id) (red green blue : Nat)
  | GetGeometry (drawable : Id)
  | PolyFillRectangle (drawable gc : Id) (rects : List XRectangle)
  | PolyRectangle (drawable gc : Id) (rects : List XRectangle)
deriving DecidableEq, Repr

/-- The binding and the server behind it.  A round trip answers with a Go pair
`(reply, err)`; its answer may depend on the requests sent before it. -/
structure Transport where
  Dial : String → Option Conn × Option OsError
  NewId : Nat → Id
  AllocColor : List Request → Id → Nat → Nat → Nat → Option AllocColorReply × Option OsError
  GetGeometry : List Request → Id → Option GetGeometryReply × Option OsError

/-- What the process can observe and change: its environment, its two output
streams (each a list of the chunks written, oldest first), the requests sent
so far and the number of resource identifiers already handed out. -/
structure World where
  env : List (String × String)
  stdout : List String
  stderr : List String
  requests : List Request
  issued : Nat
deriving DecidableEq, Repr

/-- The run-time panics of the embedded code. -/
inductive Panic where
  | nilDereference
deriving DecidableEq, Repr

/-- How a call ends: it returns, it panics, or the process exits. -/
inductive Outcome (α : Type) where
  | ok (a : α) (w : World)
  | panic (p : Panic) (w : World)
  | exit (status : Int) (w : World)
deriving DecidableEq, Repr

/-- Sequencing: the next call runs only when the first one returned. -/
def Outcome.bind {α β : Type} (o : Outcome α) (f : α → World → Outcome β) : Outcome β :=
  match o with
  | .ok a w => f a w
  | .panic p w => .panic p w
  | .exit s w => .exit s w

/-- The world a call ends in. -/
def Outcome.world {α : Type} : Outcome α → World
  | .ok _ w => w
  | .panic _ w => w
  | .exit _ w => w

/-- `os.Getenv`: the value of the variable, empty when it is not set. -/
def Getenv (w : World) (key : String) : String := (w.env.lookup key).getD ""

/-- `fmt.Printf` with the text already formatted: one write to standard output. -/
def Printf (w : World) (s : String) : World := { w with stdout := w.stdout ++ [s] }

/-- `fmt.Println`: the text and a newline, written to standard output. -/
def Println (w : World) (s : String) : World := Printf w (s ++ "\n")

/-- The statement `if err != nil { fmt.Println(s) }`: nothing else hangs on `err`. -/
def printlnIfError (err : Option OsError) (s : String) (w : World) : World :=
  match err with
  | some _ => Println w s
  | none => w

/-- Hand one request to the connection. -/
def send (r : Request) (w : World) : World := { w with requests := w.requests ++ [r] }

/-- The struct `XGBGraphics`; a nil `*xgb.Conn` is `none`. -/
structure XGBGraphics where
  listeners : List Nat
  connection : Option Conn
  winId : Id
  contextId : Id
deriving DecidableEq, Repr

/-! ## Operations of graphics.go -/

/-- Source: `createConnection`. -/
def createConnection (t : Transport) (w : World) : Outcome (Option Conn) :=
  match t.Dial (Getenv w "DISPLAY") with
  | (_, some err) => .exit 1 (Printf w ("cannot connect: " ++ err.msg ++ "\n"))
  | (connection, none) => .ok connection w

/-- Source: `createWindow`. -/
def createWindow (t : Transport) (this : XGBGraphics) (x y : Int) (width height : Nat)
    (w : World) : Outcome Id :=
  match this.connection with
  | some c =>
    let winId := t.NewId w.issued
    .ok winId (send (.CreateWindow 0 winId c.DefaultScreen.Root x y width height 0
      WindowClassCopyFromParent c.DefaultScreen.RootVisual 0 [])
      { w with issued := w.issued + 1 })
  | none => .ok 0 w

/-- Source: `createContext`. -/
def createContext (t : Transport) (this : XGBGraphics) (w : World) : Outcome Id :=
  match this.connection with
  | some _ =>
    if this.winId ≠ 0 then
      let contextId := t.NewId w.issued
      .ok contextId (send (.CreateGC contextId this.winId 0 [])
        { w with issued := w.issued + 1 })
    else .ok 0 w
  | none => .ok 0 w

/-- Source: `initialize` (the field assignments of `this`, one after the other). -/
def initialise (t : Transport) (this : XGBGraphics) (x y : Int) (width height : Nat)
    (w : World) : Outcome XGBGraphics :=
  (createConnection t w).bind fun connection w1 =>
    let this1 := { this with connection := connection }
    (createWindow t this1 x y width height w1).bind fun winId w2 =>
      let this2 := { this1 with winId := winId }
      (createContext t this2 w2).bind fun contextId w3 =>
        .ok { this2 with contextId := contextId } w3

/-- Source: `NewXGBGraphics`. -/
def NewXGBGraphics (t : Transport) (x y : Int) (width height : Nat) (w : World) :
    Outcome XGBGraphics :=
  initialise t { listeners := [], connection := none, winId := 0, contextId := 0 }
    x y width height w

/-- Source: `NewDefaultXGBGraphics`. -/
def NewDefaultXGBGraphics (t : Transport) (w : World) : Outcome XGBGraphics :=
  NewXGBGraphics t DEFAULT_X DEFAULT_Y DEFAULT_WIDTH DEFAULT_HEIGHT w

/-- Call a request method of `this.connection`; on a nil connection the method
dereferences nil. -/
def request (this : XGBGraphics) (r : Request) (w : World) : Outcome Unit :=
  match this.connection with
  | none => .panic .nilDereference w
  | some _ => .ok () (send r w)

/-- Source: `ShowWindow`. -/
def ShowWindow (this : XGBGraphics) (w : World) : Outcome Unit :=
  request this (.MapWindow this.winId) w

/-- Source: `HideWindow`. -/
def HideWindow (this : XGBGraphics) (w : World) : Outcome Unit :=
  request this (.UnmapWindow this.winId) w

/-- Source: `setWindowAttributes`. -/
def setWindowAttributes (this : XGBGraphics) (attr : Nat) (values : List Nat)
    (w : World) : Outcome Unit :=
  request this (.ChangeWindowAttributes this.winId attr values) w

/-- Source: `setContextAttributes`. -/
def setContextAttributes (this : XGBGraphics) (attr : Nat) (values : List Nat)
    (w : World) : Outcome Unit :=
  request this (.ChangeGC this.contextId attr values) w

/-- Source: `SetEventListenTypes`. -/
def SetEventListenTypes (this : XGBGraphics) (eventTypes : List Nat) (w : World) :
    Outcome Unit :=
  setWindowAttributes this CWEventMask eventTypes w

/-- The scaling `uint16(v) << 8` of one colour channel. -/
def wireChannel (v : Nat) : Nat := shl16 v 8

/-- Source: `getColorValue`.  The channels are `uint8` values. -/
def getColorValue (t : Transport) (this : XGBGraphics) (red green blue : Nat)
    (w : World) : Outcome Nat :=
  match this.connection with
  | none => .panic .nilDereference w
  | some c =>
    let colormapId := c.DefaultScreen.DefaultColormap
    let answer := t.AllocColor w.requests colormapId
      (wireChannel red) (wireChannel green) (wireChannel blue)
    let w1 := send (.AllocColor colormapId
      (wireChannel red) (wireChannel green) (wireChannel blue)) w
    let w2 := printlnIfError answer.2 "ERROR allocating color" w1
    match answer.1 with
    | none => .panic .nilDereference w2
    | some reply => .ok reply.Pixel w2

/-- Source: `SetWindowBackground`. -/
def SetWindowBackground (t : Transport) (this : XGBGraphics) (red green blue : Nat)
    (w : World) : Outcome Unit :=
  (getColorValue t this red green blue w).bind fun color w1 =>
    setWindowAttributes this CWBackPixel [color] w1

/-- Source: `SetFGColor`. -/
def SetFGColor (t : Transport) (this : XGBGraphics) (red green blue : Nat)
    (w : World) : Outcome Unit :=
  (getColorValue t this red green blue w).bind fun color w1 =>
    setContextAttributes this GCForeground [color] w1

/-- Source: `SetBGColor`. -/
def SetBGColor (t : Transport) (this : XGBGraphics) (red green blue : Nat)
    (w : World) : Outcome Unit :=
  (getColorValue t this red green blue w).bind fun color w1 =>
    setContextAttributes this GCBackground [color] w1

/-- Source: `GetWindowSize`. -/
def GetWindowSize (t : Transport) (this : XGBGraphics) (w : World) : Outcome Dimension :=
  match this.connection with
  | none => .panic .nilDereference w
  | some _ =>
    let answer := t.GetGeometry w.requests this.winId
    let w1 := send (.GetGeometry this.winId) w
    let w2 := printlnIfError answer.2 "ERROR getting window size" w1
    match answer.1 with
    | none => .panic .nilDereference w2
    | some reply => .ok { Width := (reply.Width : Int), Height := (reply.Height : Int) } w2

/-- Source: `createRectangle`. -/
def createRectangle (x y width height : Int) : List XRectangle :=
  [{ X := toInt16 x, Y := toInt16 y, Width := toUint16 width, Height := toUint16 height }]

/-- Source: `DrawRect`. -/
def DrawRect (this : XGBGraphics) (x y width height : Int) (w : World) : Outcome Unit :=
  let rect := createRectangle x y width height
  request this (.PolyFillRectangle this.winId this.contextId rect) w

/-- Source: `DrawRectFromRect`; a nil `rect` is `none`. -/
def DrawRectFromRect (this : XGBGraphics) (rect : Option Rectangle) (w : World) :
    Outcome Unit :=
  match rect with
  | none => .panic .nilDereference w
  | some r => DrawRect this r.X r.Y r.Width r.Height w

/-- Source: `DrawBorder`. -/
def DrawBorder (this : XGBGraphics) (x y width height : Int) (w : World) : Outcome Unit :=
  let rect := createRectangle x y width height
  request this (.PolyRectangle this.winId this.contextId rect) w

/-- Source: `DrawBorderFromRect`; a nil `rect` is `none`. -/
def DrawBorderFromRect (this : XGBGraphics) (rect : Option Rectangle) (w : World) :
    Outcome Unit :=
  match rect with
  | none => .panic .nilDereference w
  | some r => DrawBorder this r.X r.Y r.Width r.Height w

/-- Source: `DrawBorderedRect`. -/
def DrawBorderedRect (t : Transport) (this : XGBGraphics) (x y width height : Int)
    (w : World) : Outcome Unit :=
  (DrawRect this x y width height w).bind fun _ w1 =>
    (SetFGColor t this 0 0 0 w1).bind fun _ w2 =>
      DrawBorder this x y width height w2

/-- Source: `DrawBorderedRectFromRect`; a nil `rect` is `none`. -/
def DrawBorderedRectFromRect (t : Transport) (this : XGBGraphics) (rect : Option Rectangle)
    (w : World) : Outcome Unit :=
  match rect with
  | none => .panic .nilDereference w
  | some r => DrawBorderedRect t this r.X r.Y r.Width r.Height w

/-! ## The display server's side

The server is outside the repository.  What the claims say about state kept by
the server (the foreground of a graphics context, the geometry of a window) is
read off the request log by the rules of the X11 core protocol. -/

/-- Position of the foreground pixel in the value list of a graphics-context
request: values come in the order of the mask bits, and the two bits below
`GCForeground` are 1 and 2. -/
def foregroundIndex (valueMask : Nat) : Nat := valueMask % 2 + valueMask / 2 % 2

/-- The effect of one request on the foreground of context `gc`: `CreateGC`
sets it (0 when the mask leaves it out), `ChangeGC` overwrites it when the
mask has the `GCForeground` bit, every other request leaves it alone. -/
def gcStep (gc : Id) (fg : Option Nat) (r : Request) : Option Nat :=
  match r with
  | .CreateGC cid _ valueMask values =>
    if cid = gc then
      (if valueMask / GCForeground % 2 = 1 then values.get? (foregroundIndex valueMask)
       else some 0)
    else fg
  | .ChangeGC g valueMask values =>
    if g = gc ∧ valueMask / GCForeground % 2 = 1 then
      (match values.get? (foregroundIndex valueMask) with
       | some p => some p
       | none => fg)
    else fg
  | _ => fg

/-- The foreground pixel of context `gc` after the requests of `log`; `none`
when the context was never created or set. -/
def foregroundOf (log : List Request) (gc : Id) : Option Nat :=
  log.foldl (gcStep gc) none

/-- The effect of one request on the geometry window `wid` was created with. -/
def geometryStep (wid : Id) (geo : Option GetGeometryReply) (r : Request) :
    Option GetGeometryReply :=
  match r with
  | .CreateWindow _ id _ x y width height _ _ _ _ _ =>
    if id = wid then some { X := x, Y := y, Width := width, Height := height } else geo
  | _ => geo

/-- The geometry given when window `wid` was created, by the requests of `log`. -/
def creationGeometry (log : List Request) (wid : Id) : Option GetGeometryReply :=
  log.foldl (geometryStep wid) none

/-- A transport that answers a geometry query with the geometry given when the
window was created. -/
def AnswersCreationGeometry (t : Transport) : Prop :=
  ∀ log wid geo, creationGeometry log wid = some geo → t.GetGeometry log wid = (some geo, none)

/-! ## Concrete transports and states -/

/-- A screen with root window 1, visual 2 and colormap 3. -/
def screen0 : Screen := { Root := 1, RootVisual := 2, DefaultColormap := 3 }

/-- A connection to `screen0`. -/
def conn0 : Conn := { DefaultScreen := screen0 }

/-- A fake transport: `Dial` fails on the empty display string, identifiers
count up from 100, `AllocColor` echoes the red channel as the pixel, and
`GetGeometry` answers with the geometry the window was created with. -/
def fakeTransport : Transport where
  Dial := fun display =>
    if display = "" then (none, some { msg := "empty display string" })
    else (some conn0, none)
  NewId := fun k => 100 + k
  AllocColor := fun _ _ red _ _ => (some { Pixel := red }, none)
  GetGeometry := fun log wid =>
    match creationGeometry log wid with
    | some geo => (some geo, none)
    | none => (none, some { msg := "BadDrawable" })

/-- A transport whose round trips fail without a reply, as a broken connection does. -/
def brokenTransport : Transport where
  Dial := fun _ => (some conn0, none)
  NewId := fun k => 100 + k
  AllocColor := fun _ _ _ _ _ => (none, some { msg := "connection closed" })
  GetGeometry := fun _ _ => (none, some { msg := "connection closed" })

/-- A transport whose server reports every window as 800 by 600, whatever
geometry it was created with (the window was resized since). -/
def resizedTransport : Transport where
  Dial := fun _ => (some conn0, none)
  NewId := fun k => 100 + k
  AllocColor := fun _ _ red _ _ => (some { Pixel := red }, none)
  GetGeometry := fun _ _ => (some { X := 0, Y := 0, Width := 800, Height := 600 }, none)

/-- A process with `DISPLAY=:0` that has written and sent nothing yet. -/
def world0 : World :=
  { env := [("DISPLAY", ":0")], stdout := [], stderr := [], requests := [], issued := 0 }

/-- A process without `DISPLAY` that has written and sent nothing yet. -/
def worldNoDisplay : World :=
  { env := [], stdout := [], stderr := [], requests := [], issued := 0 }

/-- A backend with window 100 and context 101 on `conn0`. -/
def graphics0 : XGBGraphics :=
  { listeners := [], connection := some conn0, winId := 100, contextId := 101 }

/-! ## Auxiliary lemmas -/

theorem wireChannel_eq (v : Nat) (hv : v ≤ 255) : wireChannel v = v * 256 := by
  unfold wireChannel shl16
  omega

theorem toInt16_of_range (x : Int) (h1 : -32768 ≤ x) (h2 : x ≤ 32767) : toInt16 x = x := by
  unfold toInt16
  omega

theorem toUint16_of_range (n : Int) (h1 : 0 ≤ n) (h2 : n ≤ 65535) : (toUint16 n : Int) = n := by
  unfold toUint16
  omega

theorem request_some (this : XGBGraphics) (c : Conn) (r : Request) (w : World)
    (hc : this.connection = some c) : request this r w = .ok () (send r w) := by
  simp [request, hc]

theorem getColorValue_reply (t : Transport) (this : XGBGraphics) (c : Conn)
    (red green blue : Nat) (w : World) (reply : AllocColorReply) (err : Option OsError)
    (hc : this.connection = some c)
    (ha : t.AllocColor w.requests c.DefaultScreen.DefaultColormap (wireChannel red)
      (wireChannel green) (wireChannel blue) = (some reply, err)) :
    getColorValue t this red green blue w
      = .ok reply.Pixel (printlnIfError err "ERROR allocating color"
          (send (.AllocColor c.DefaultScreen.DefaultColormap (wireChannel red)
            (wireChannel green) (wireChannel blue)) w)) := by
  simp [getColorValue, hc, ha]

theorem getColorValue_no_reply (t : Transport) (this : XGBGraphics) (c : Conn)
    (red green blue : Nat) (w : World) (err : Option OsError)
    (hc : this.connection = some c)
    (ha : t.AllocColor w.requests c.DefaultScreen.DefaultColormap (wireChannel red)
      (wireChannel green) (wireChannel blue) = (none, err)) :
    getColorValue t this red green blue w
      = .panic .nilDereference (printlnIfError err "ERROR allocating color"
          (send (.AllocColor c.DefaultScreen.DefaultColormap (wireChannel red)
            (wireChannel green) (wireChannel blue)) w)) := by
  simp [getColorValue, hc, ha]

theorem wireChannel_zero : wireChannel 0 = 0 := by decide

theorem printlnIfError_requests (err : Option OsError) (s : String) (w : World) :
    (printlnIfError err s w).requests = w.requests := by
  cases err <;> rfl

/-- The requests of DrawBorderedRect when the allocation round trip yields a reply. -/
theorem DrawBorderedRect_reply (t : Transport) (this : XGBGraphics) (c : Conn)
    (x y width height : Int) (w : World) (reply : AllocColorReply) (err : Option OsError)
    (hc : this.connection = some c)
    (ha : t.AllocColor
        (w.requests ++ [.PolyFillRectangle this.winId this.contextId
          (createRectangle x y width height)])
        c.DefaultScreen.DefaultColormap 0 0 0 = (some reply, err)) :
    ∃ w1, DrawBorderedRect t this x y width height w = .ok () w1
      ∧ w1.requests = w.requests ++
          [.PolyFillRectangle this.winId this.contextId (createRectangle x y width height),
           .AllocColor c.DefaultScreen.DefaultColormap 0 0 0,
           .ChangeGC this.contextId GCForeground [reply.Pixel],
           .PolyRectangle this.winId this.contextId (createRectangle x y width height)] := by
  have hg := getColorValue_reply t this c 0 0 0
    (send (.PolyFillRectangle this.winId this.contextId (createRectangle x y width height)) w)
    reply err hc (by rw [wireChannel_zero]; exact ha)
  have h : DrawBorderedRect t this x y width height w
      = .ok () (send (.PolyRectangle this.winId this.contextId (createRectangle x y width height))
          (send (.ChangeGC this.contextId GCForeground [reply.Pixel])
            (printlnIfError err "ERROR allocating color"
              (send (.AllocColor c.DefaultScreen.DefaultColormap 0 0 0)
                (send (.PolyFillRectangle this.winId this.contextId
                  (createRectangle x y width height)) w))))) := by
    simp only [DrawBorderedRect, DrawRect, DrawBorder, SetFGColor, setContextAttributes,
      request_some this c _ _ hc, Outcome.bind, hg, wireChannel_zero]
  refine ⟨_, h, ?_⟩
  simp [send, printlnIfError_requests]

/-- The requests of DrawBorderedRect when the allocation round trip yields no reply. -/
theorem DrawBorderedRect_no_reply (t : Transport) (this : XGBGraphics) (c : Conn)
    (x y width height : Int) (w : World) (err : Option OsError)
    (hc : this.connection = some c)
    (ha : t.AllocColor
        (w.requests ++ [.PolyFillRectangle this.winId this.contextId
          (createRectangle x y width height)])
        c.DefaultScreen.DefaultColormap 0 0 0 = (none, err)) :
    DrawBorderedRect t this x y width height w
      = .panic .nilDereference (printlnIfError err "ERROR allocating color"
          (send (.AllocColor c.DefaultScreen.DefaultColormap 0 0 0)
            (send (.PolyFillRectangle this.winId this.contextId
              (createRectangle x y width height)) w))) := by
  have hg := getColorValue_no_reply t this c 0 0 0
    (send (.PolyFillRectangle this.winId this.contextId (createRectangle x y width height)) w)
    err hc (by rw [wireChannel_zero]; exact ha)
  simp only [DrawBorderedRect, DrawRect, SetFGColor,
    request_some this c _ _ hc, Outcome.bind, hg, wireChannel_zero]

/-! ## Colour scaling -/

/-- C1: for channels red, green, blue in 0..255, getColorValue hands AllocColor
the default colormap and the wire values `v << 8`; each wire value equals
`v * 256`, is at most 65280 (so it fits 16 bits), and shifted right by 8 gives
the channel back; red 255 scales to 65280. -/
theorem getColorValue_wire_scaling (t : Transport) (this : XGBGraphics) (c : Conn)
    (red green blue : Nat) (w : World) (hc : this.connection = some c)
    (hr : red ≤ 255) (hg : green ≤ 255) (hb : blue ≤ 255) :
    (getColorValue t this red green blue w).world.requests =
        w.requests ++ [Request.AllocColor c.DefaultScreen.DefaultColormap
          (red <<< 8) (green <<< 8) (blue <<< 8)]
      ∧ (∀ v, v ≤ 255 → wireChannel v = v <<< 8 ∧ v <<< 8 = v * 256 ∧ wireChannel v ≤ 65280
          ∧ wireChannel v < 2 ^ 16 ∧ (wireChannel v) >>> 8 = v ∧ shr16 (wireChannel v) 8 = v)
      ∧ wireChannel 255 = 65280 := by
  have hw : ∀ v, v ≤ 255 → wireChannel v = v <<< 8 := by
    intro v hv
    rw [wireChannel_eq v hv, Nat.shiftLeft_eq]
  refine ⟨?_, ?_, by decide⟩
  · rw [← hw red hr, ← hw green hg, ← hw blue hb]
    unfold getColorValue
    rw [hc]
    dsimp only
    cases h1 : (t.AllocColor w.requests c.DefaultScreen.DefaultColormap (wireChannel red)
        (wireChannel green) (wireChannel blue)).1 <;>
      cases h2 : (t.AllocColor w.requests c.DefaultScreen.DefaultColormap (wireChannel red)
        (wireChannel green) (wireChannel blue)).2 <;>
      simp [Outcome.world, printlnIfError, Println, Printf, send]
  · intro v hv
    have h := wireChannel_eq v hv
    refine ⟨hw v hv, ?_, ?_, ?_, ?_, ?_⟩
    · rw [Nat.shiftLeft_eq]
    · omega
    · omega
    · rw [h, Nat.shiftRight_eq_div_pow]; omega
    · rw [h]; unfold shr16; omega

/-- Witness of C1: red 255, green 128, blue 0 on the fake transport. -/
theorem getColorValue_wire_scaling_witness :
    (getColorValue fakeTransport graphics0 255 128 0 world0).world.requests =
        world0.requests ++ [Request.AllocColor conn0.DefaultScreen.DefaultColormap
          (255 <<< 8) (128 <<< 8) (0 <<< 8)]
      ∧ (∀ v, v ≤ 255 → wireChannel v = v <<< 8 ∧ v <<< 8 = v * 256 ∧ wireChannel v ≤ 65280
          ∧ wireChannel v < 2 ^ 16 ∧ (wireChannel v) >>> 8 = v ∧ shr16 (wireChannel v) 8 = v)
      ∧ wireChannel 255 = 65280 :=
  getColorValue_wire_scaling fakeTransport graphics0 conn0 255 128 0 world0 rfl
    (by decide) (by decide) (by decide)

/-! ## Rectangle conversion -/

/-- C10: for x and y in [-32768, 32767] and width and height in [0, 65535],
createRectangle returns a list of exactly one wire rectangle whose X, Y, Width
and Height are numerically equal to x, y, width and height. -/
theorem createRectangle_in_range (x y width height : Int)
    (hx1 : -32768 ≤ x) (hx2 : x ≤ 32767) (hy1 : -32768 ≤ y) (hy2 : y ≤ 32767)
    (hw1 : 0 ≤ width) (hw2 : width ≤ 65535) (hh1 : 0 ≤ height) (hh2 : height ≤ 65535) :
    ∃ r : XRectangle, createRectangle x y width height = [r] ∧ r.X = x ∧ r.Y = y
      ∧ (r.Width : Int) = width ∧ (r.Height : Int) = height :=
  ⟨_, rfl, toInt16_of_range x hx1 hx2, toInt16_of_range y hy1 hy2,
    toUint16_of_range width hw1 hw2, toUint16_of_range height hh1 hh2⟩

/-- Witness of C10: the corner values -32768, 32767, 0 and 65535. -/
theorem createRectangle_in_range_witness :
    ∃ r : XRectangle, createRectangle (-32768) 32767 0 65535 = [r] ∧ r.X = -32768
      ∧ r.Y = 32767 ∧ (r.Width : Int) = 0 ∧ (r.Height : Int) = 65535 :=
  createRectangle_in_range (-32768) 32767 0 65535 (by decide) (by decide) (by decide)
    (by decide) (by decide) (by decide) (by decide) (by decide)

/-- C7, refuted: DrawRect with x = 70000 (outside the signed 16-bit range) and
DrawBorder with width = -1 (outside the unsigned 16-bit range) do not fail;
they return normally after sending a rectangle with X = 4464 and with
Width = 65535. -/
theorem DrawRect_out_of_range_sends_truncated :
    ¬ ((-32768 : Int) ≤ 70000 ∧ (70000 : Int) ≤ 32767)
      ∧ DrawRect graphics0 70000 0 10 10 world0 = .ok () (send (.PolyFillRectangle 100 101
          [{ X := 4464, Y := 0, Width := 10, Height := 10 }]) world0)
      ∧ ¬ ((0 : Int) ≤ -1 ∧ (-1 : Int) ≤ 65535)
      ∧ DrawBorder graphics0 0 0 (-1) 10 world0 = .ok () (send (.PolyRectangle 100 101
          [{ X := 0, Y := 0, Width := 65535, Height := 10 }]) world0) := by
  refine ⟨by decide, by decide, by decide, by decide⟩

/-- C7, amended: DrawRect and DrawBorder check no range.  On an open connection,
for every x, y, width and height, each returns normally after sending exactly
one request with one rectangle, whose X and Y lie in [-32768, 32767] and are
congruent to x and y modulo 65536, and whose Width and Height lie in
[0, 65535] and are congruent to width and height modulo 65536. -/
theorem DrawRect_DrawBorder_truncate (this : XGBGraphics) (c : Conn)
    (x y width height : Int) (w : World) (hc : this.connection = some c) :
    ∃ r : XRectangle,
      DrawRect this x y width height w
          = .ok () (send (.PolyFillRectangle this.winId this.contextId [r]) w)
      ∧ DrawBorder this x y width height w
          = .ok () (send (.PolyRectangle this.winId this.contextId [r]) w)
      ∧ -32768 ≤ r.X ∧ r.X ≤ 32767 ∧ (r.X - x) % 65536 = 0
      ∧ -32768 ≤ r.Y ∧ r.Y ≤ 32767 ∧ (r.Y - y) % 65536 = 0
      ∧ r.Width ≤ 65535 ∧ ((r.Width : Int) - width) % 65536 = 0
      ∧ r.Height ≤ 65535 ∧ ((r.Height : Int) - height) % 65536 = 0 := by
  refine ⟨{ X := toInt16 x, Y := toInt16 y, Width := toUint16 width,
            Height := toUint16 height }, ?_, ?_, ?_⟩
  · exact request_some this c _ w hc
  · exact request_some this c _ w hc
  · simp only [toInt16, toUint16]
    omega

/-- Witness of C7, amended: x = 70000 and width = -1 on an open connection. -/
theorem DrawRect_DrawBorder_truncate_witness :
    ∃ r : XRectangle,
      DrawRect graphics0 70000 0 (-1) 10 world0
          = .ok () (send (.PolyFillRectangle graphics0.winId graphics0.contextId [r]) world0)
      ∧ DrawBorder graphics0 70000 0 (-1) 10 world0
          = .ok () (send (.PolyRectangle graphics0.winId graphics0.contextId [r]) world0)
      ∧ -32768 ≤ r.X ∧ r.X ≤ 32767 ∧ (r.X - 70000) % 65536 = 0
      ∧ -32768 ≤ r.Y ∧ r.Y ≤ 32767 ∧ (r.Y - 0) % 65536 = 0
      ∧ r.Width ≤ 65535 ∧ ((r.Width : Int) - (-1)) % 65536 = 0
      ∧ r.Height ≤ 65535 ∧ ((r.Height : Int) - 10) % 65536 = 0 :=
  DrawRect_DrawBorder_truncate graphics0 conn0 70000 0 (-1) 10 world0 rfl

/-! ## The Rectangle overloads -/

/-- C4: for every non-nil Rectangle r and every backend state, DrawRectFromRect,
DrawBorderFromRect and DrawBorderedRectFromRect end exactly as DrawRect,
DrawBorder and DrawBorderedRect called with r.X, r.Y, r.Width, r.Height: the
same result, the same requests, the same final state. -/
theorem FromRect_overloads_agree (t : Transport) (this : XGBGraphics) (r : Rectangle)
    (w : World) :
    DrawRectFromRect this (some r) w = DrawRect this r.X r.Y r.Width r.Height w
      ∧ DrawBorderFromRect this (some r) w = DrawBorder this r.X r.Y r.Width r.Height w
      ∧ DrawBorderedRectFromRect t this (some r) w
          = DrawBorderedRect t this r.X r.Y r.Width r.Height w :=
  ⟨rfl, rfl, rfl⟩

/-! ## The bordered rectangle -/

/-- C3: on an open connection, for every rectangle, DrawBorderedRect sends on the
same window and context, in this order: one fill-rectangle request, one
AllocColor round trip for (0,0,0), one ChangeGC of the foreground to the
allocated pixel, one outline-rectangle request with the same rectangle; when
the round trip yields no reply to take a pixel from, the call panics after
the first two and the fill is still the first request. -/
theorem DrawBorderedRect_request_order (t : Transport) (this : XGBGraphics) (c : Conn)
    (x y width height : Int) (w : World) (hc : this.connection = some c) :
    (∀ reply err,
        t.AllocColor
          (w.requests ++ [.PolyFillRectangle this.winId this.contextId
            (createRectangle x y width height)])
          c.DefaultScreen.DefaultColormap 0 0 0 = (some reply, err) →
        ∃ w1, DrawBorderedRect t this x y width height w = .ok () w1
          ∧ w1.requests = w.requests ++
              [.PolyFillRectangle this.winId this.contextId (createRectangle x y width height),
               .AllocColor c.DefaultScreen.DefaultColormap 0 0 0,
               .ChangeGC this.contextId GCForeground [reply.Pixel],
               .PolyRectangle this.winId this.contextId (createRectangle x y width height)])
      ∧ (∀ err,
        t.AllocColor
          (w.requests ++ [.PolyFillRectangle this.winId this.contextId
            (createRectangle x y width height)])
          c.DefaultScreen.DefaultColormap 0 0 0 = (none, err) →
        ∃ w1, DrawBorderedRect t this x y width height w = .panic .nilDereference w1
          ∧ w1.requests = w.requests ++
              [.PolyFillRectangle this.winId this.contextId (createRectangle x y width height),
               .AllocColor c.DefaultScreen.DefaultColormap 0 0 0]) := by
  refine ⟨fun reply err ha => DrawBorderedRect_reply t this c x y width height w reply err hc ha,
    fun err ha => ⟨_, DrawBorderedRect_no_reply t this c x y width height w err hc ha, ?_⟩⟩
  simp [send, printlnIfError_requests]

/-- Witness of C3: the rectangle (10, 20, 30, 40) on the fake transport, which
allocates pixel 0 for black. -/
theorem DrawBorderedRect_request_order_witness :
    ∃ w1, DrawBorderedRect fakeTransport graphics0 10 20 30 40 world0 = .ok () w1
      ∧ w1.requests = world0.requests ++
          [.PolyFillRectangle graphics0.winId graphics0.contextId (createRectangle 10 20 30 40),
           .AllocColor conn0.DefaultScreen.DefaultColormap 0 0 0,
           .ChangeGC graphics0.contextId GCForeground [(AllocColorReply.mk 0).Pixel],
           .PolyRectangle graphics0.winId graphics0.contextId (createRectangle 10 20 30 40)] :=
  (DrawBorderedRect_request_order fakeTransport graphics0 conn0 10 20 30 40 world0 rfl).1
    (AllocColorReply.mk 0) none rfl

/-- C2: for every rectangle and every prior request history (so every prior
foreground of the context), when the allocation of black (0,0,0) succeeds
with pixel p, DrawBorderedRect returns and the foreground of the context is
then p; it is not set back to what it was. -/
theorem DrawBorderedRect_leaves_black (t : Transport) (this : XGBGraphics) (c : Conn)
    (x y width height : Int) (w : World) (black : AllocColorReply)
    (hc : this.connection = some c)
    (ha : t.AllocColor
        (w.requests ++ [.PolyFillRectangle this.winId this.contextId
          (createRectangle x y width height)])
        c.DefaultScreen.DefaultColormap 0 0 0 = (some black, none)) :
    ∃ w1, DrawBorderedRect t this x y width height w = .ok () w1
      ∧ foregroundOf w1.requests this.contextId = some black.Pixel := by
  obtain ⟨w1, h1, h2⟩ := DrawBorderedRect_reply t this c x y width height w black none hc ha
  refine ⟨w1, h1, ?_⟩
  rw [h2]
  simp [foregroundOf, List.foldl_append, gcStep, GCForeground, foregroundIndex]

/-- Witness of C2: the foreground was pixel 9 before the call and is the black
pixel 0 after it. -/
theorem DrawBorderedRect_leaves_black_witness :
    foregroundOf (send (.ChangeGC 101 GCForeground [9]) world0).requests 101 = some 9
      ∧ ∃ w1, DrawBorderedRect fakeTransport graphics0 10 20 30 40
            (send (.ChangeGC 101 GCForeground [9]) world0) = .ok () w1
          ∧ foregroundOf w1.requests graphics0.contextId = some (AllocColorReply.mk 0).Pixel :=
  ⟨by decide, DrawBorderedRect_leaves_black fakeTransport graphics0 conn0 10 20 30 40
    (send (.ChangeGC 101 GCForeground [9]) world0) (AllocColorReply.mk 0) rfl rfl⟩

/-! ## Failed round trips -/

/-- C5: what the code does when the colour-allocation round trip fails and
carries no reply.  On an open connection, SetFGColor, SetBGColor and
SetWindowBackground (whenever their own round trip fails so) and
DrawBorderedRect (whenever its round trip for black fails so) write the line
"ERROR allocating color" to standard output and then end in a
nil-dereference panic: the allocation error is not handed to the caller.
The AllocColor request is the last request sent. -/
theorem color_setters_panic_without_reply (t : Transport) (this : XGBGraphics) (c : Conn)
    (w : World) (hc : this.connection = some c) :
    (∀ (red green blue : Nat) (err : OsError),
        t.AllocColor w.requests c.DefaultScreen.DefaultColormap (wireChannel red)
          (wireChannel green) (wireChannel blue) = (none, some err) →
        SetFGColor t this red green blue w
            = .panic .nilDereference { w with
                requests := w.requests ++ [.AllocColor c.DefaultScreen.DefaultColormap
                  (wireChannel red) (wireChannel green) (wireChannel blue)],
                stdout := w.stdout ++ ["ERROR allocating color\n"] }
          ∧ SetBGColor t this red green blue w
            = .panic .nilDereference { w with
                requests := w.requests ++ [.AllocColor c.DefaultScreen.DefaultColormap
                  (wireChannel red) (wireChannel green) (wireChannel blue)],
                stdout := w.stdout ++ ["ERROR allocating color\n"] }
          ∧ SetWindowBackground t this red green blue w
            = .panic .nilDereference { w with
                requests := w.requests ++ [.AllocColor c.DefaultScreen.DefaultColormap
                  (wireChannel red) (wireChannel green) (wireChannel blue)],
                stdout := w.stdout ++ ["ERROR allocating color\n"] })
      ∧ (∀ (x y width height : Int) (err : OsError),
        t.AllocColor
          (w.requests ++ [.PolyFillRectangle this.winId this.contextId
            (createRectangle x y width height)])
          c.DefaultScreen.DefaultColormap 0 0 0 = (none, some err) →
        DrawBorderedRect t this x y width height w
          = .panic .nilDereference { w with
              requests := w.requests ++
                [.PolyFillRectangle this.winId this.contextId
                   (createRectangle x y width height),
                 .AllocColor c.DefaultScreen.DefaultColormap 0 0 0],
              stdout := w.stdout ++ ["ERROR allocating color\n"] }) := by
  constructor
  · intro red green blue err ha
    have hg := getColorValue_no_reply t this c red green blue w (some err) hc ha
    refine ⟨?_, ?_, ?_⟩
    · simp [SetFGColor, hg, Outcome.bind, printlnIfError, Println, Printf, send]
    · simp [SetBGColor, hg, Outcome.bind, printlnIfError, Println, Printf, send]
    · simp [SetWindowBackground, hg, Outcome.bind, printlnIfError, Println, Printf, send]
  · intro x y width height err hb
    rw [DrawBorderedRect_no_reply t this c x y width height w (some err) hc hb]
    simp [printlnIfError, Println, Printf, send]

/-- Witness of C5: on the broken transport SetFGColor(255, 0, 0) and
DrawBorderedRect(10, 20, 30, 40) print the line and panic. -/
theorem color_setters_panic_without_reply_witness :
    (SetFGColor brokenTransport graphics0 255 0 0 world0
        = .panic .nilDereference { world0 with
            requests := world0.requests ++ [.AllocColor conn0.DefaultScreen.DefaultColormap
              (wireChannel 255) (wireChannel 0) (wireChannel 0)],
            stdout := world0.stdout ++ ["ERROR allocating color\n"] }
      ∧ SetBGColor brokenTransport graphics0 255 0 0 world0
        = .panic .nilDereference { world0 with
            requests := world0.requests ++ [.AllocColor conn0.DefaultScreen.DefaultColormap
              (wireChannel 255) (wireChannel 0) (wireChannel 0)],
            stdout := world0.stdout ++ ["ERROR allocating color\n"] }
      ∧ SetWindowBackground brokenTransport graphics0 255 0 0 world0
        = .panic .nilDereference { world0 with
            requests := world0.requests ++ [.AllocColor conn0.DefaultScreen.DefaultColormap
              (wireChannel 255) (wireChannel 0) (wireChannel 0)],
            stdout := world0.stdout ++ ["ERROR allocating color\n"] })
      ∧ DrawBorderedRect brokenTransport graphics0 10 20 30 40 world0
        = .panic .nilDereference { world0 with
            requests := world0.requests ++
              [.PolyFillRectangle graphics0.winId graphics0.contextId
                 (createRectangle 10 20 30 40),
               .AllocColor conn0.DefaultScreen.DefaultColormap 0 0 0],
            stdout := world0.stdout ++ ["ERROR allocating color\n"] } :=
  have h := color_setters_panic_without_reply brokenTransport graphics0 conn0 world0 rfl
  ⟨h.1 255 0 0 (OsError.mk "connection closed") rfl,
    h.2 10 20 30 40 (OsError.mk "connection closed") rfl⟩

/-- C6: what the code does when the geometry query round trip fails and carries
no reply.  On an open connection GetWindowSize writes the line
"ERROR getting window size" to standard output and then ends in a
nil-dereference panic: the query error is not handed to the caller, and no
Dimension is returned. -/
theorem GetWindowSize_panics_without_reply (t : Transport) (this : XGBGraphics) (c : Conn)
    (w : World) (err : OsError) (hc : this.connection = some c)
    (ha : t.GetGeometry w.requests this.winId = (none, some err)) :
    GetWindowSize t this w
      = .panic .nilDereference { w with
          requests := w.requests ++ [.GetGeometry this.winId],
          stdout := w.stdout ++ ["ERROR getting window size\n"] } := by
  simp [GetWindowSize, hc, ha, printlnIfError, Println, Printf, send]

/-- Witness of C6: the broken transport. -/
theorem GetWindowSize_panics_without_reply_witness :
    GetWindowSize brokenTransport graphics0 world0
      = .panic .nilDereference { world0 with
          requests := world0.requests ++ [.GetGeometry graphics0.winId],
          stdout := world0.stdout ++ ["ERROR getting window size\n"] } :=
  GetWindowSize_panics_without_reply brokenTransport graphics0 conn0 world0
    (OsError.mk "connection closed") rfl rfl

/-! ## Opening the session -/

/-- C8, refuted: with no DISPLAY and a Dial that rejects the empty display
string, building the backend ends the process with status 1, but the
diagnostic is on standard output and the error stream stays empty. -/
theorem createConnection_diagnostic_not_on_stderr :
    Getenv worldNoDisplay "DISPLAY" = ""
      ∧ NewDefaultXGBGraphics fakeTransport worldNoDisplay
        = .exit 1 { worldNoDisplay with
            stdout := ["cannot connect: empty display string\n"] }
      ∧ (NewDefaultXGBGraphics fakeTransport worldNoDisplay).world.stderr = [] := by
  refine ⟨by decide, by decide, by decide⟩

/-- C8, amended: when Dial reports an error for the display endpoint (missing,
empty or unreachable), createConnection, and with it NewXGBGraphics, ends the
process with exit status 1 after writing the diagnostic "cannot connect: "
followed by the error and a newline to standard output; nothing is written to
the error stream, no identifier is taken and no request is sent, so no window
or context is created. -/
theorem createConnection_failure_exits (t : Transport) (w : World) (conn : Option Conn)
    (err : OsError) (x y : Int) (width height : Nat)
    (hd : t.Dial (Getenv w "DISPLAY") = (conn, some err)) :
    createConnection t w
        = .exit 1 { w with stdout := w.stdout ++ ["cannot connect: " ++ err.msg ++ "\n"] }
      ∧ ∃ w1, NewXGBGraphics t x y width height w = .exit 1 w1
          ∧ w1.stdout = w.stdout ++ ["cannot connect: " ++ err.msg ++ "\n"]
          ∧ w1.stderr = w.stderr ∧ w1.requests = w.requests ∧ w1.issued = w.issued := by
  have h : createConnection t w
      = .exit 1 { w with stdout := w.stdout ++ ["cannot connect: " ++ err.msg ++ "\n"] } := by
    simp [createConnection, hd, Printf]
  refine ⟨h, { w with stdout := w.stdout ++ ["cannot connect: " ++ err.msg ++ "\n"] },
    ?_, rfl, rfl, rfl, rfl⟩
  simp [NewXGBGraphics, initialise, h, Outcome.bind]

/-- Witness of C8, amended: no DISPLAY, and a Dial that rejects the empty string. -/
theorem createConnection_failure_exits_witness :
    createConnection fakeTransport worldNoDisplay
        = .exit 1 { worldNoDisplay with
            stdout := worldNoDisplay.stdout
              ++ ["cannot connect: " ++ (OsError.mk "empty display string").msg ++ "\n"] }
      ∧ ∃ w1, NewXGBGraphics fakeTransport 50 50 400 350 worldNoDisplay = .exit 1 w1
          ∧ w1.stdout = worldNoDisplay.stdout
              ++ ["cannot connect: " ++ (OsError.mk "empty display string").msg ++ "\n"]
          ∧ w1.stderr = worldNoDisplay.stderr ∧ w1.requests = worldNoDisplay.requests
          ∧ w1.issued = worldNoDisplay.issued :=
  createConnection_failure_exits fakeTransport worldNoDisplay none
    (OsError.mk "empty display string") 50 50 400 350 rfl

/-! ## The window size -/

theorem fakeTransport_answers_creation_geometry : AnswersCreationGeometry fakeTransport := by
  intro log wid geo h
  simp [fakeTransport, h]

theorem GetWindowSize_reply (t : Transport) (this : XGBGraphics) (c : Conn) (w : World)
    (reply : GetGeometryReply) (err : Option OsError) (hc : this.connection = some c)
    (ha : t.GetGeometry w.requests this.winId = (some reply, err)) :
    GetWindowSize t this w
      = .ok { Width := (reply.Width : Int), Height := (reply.Height : Int) }
          (printlnIfError err "ERROR getting window size"
            (send (.GetGeometry this.winId) w)) := by
  simp [GetWindowSize, hc, ha]

/-- C9: against a transport that answers a geometry query with the geometry
given when the window was created, a backend built by NewDefaultXGBGraphics
(which sends a CreateWindow request with x=50, y=50, width=400, height=350)
returns Dimension (400, 350) from GetWindowSize; and in general, for every
transport, on an open connection GetWindowSize sends one GetGeometry request
for its window and returns the width and the height of that reply, in that
order, whatever geometry the window was created with. -/
theorem GetWindowSize_of_default_window (t : Transport) :
    (∀ (w : World) (c : Conn), AnswersCreationGeometry t →
        t.Dial (Getenv w "DISPLAY") = (some c, none) →
        ∃ g w1 w2, NewDefaultXGBGraphics t w = .ok g w1
          ∧ Request.CreateWindow 0 g.winId c.DefaultScreen.Root 50 50 400 350 0
              WindowClassCopyFromParent c.DefaultScreen.RootVisual 0 [] ∈ w1.requests
          ∧ GetWindowSize t g w1 = .ok { Width := 400, Height := 350 } w2)
      ∧ (∀ (this : XGBGraphics) (conn : Conn) (w0 : World) (reply : GetGeometryReply)
          (err : Option OsError), this.connection = some conn →
          t.GetGeometry w0.requests this.winId = (some reply, err) →
          GetWindowSize t this w0
            = .ok { Width := (reply.Width : Int), Height := (reply.Height : Int) }
                (printlnIfError err "ERROR getting window size"
                  (send (.GetGeometry this.winId) w0))) := by
  constructor
  · intro w c ht hd
    have hconn : createConnection t w = .ok (some c) w := by
      simp [createConnection, hd]
    by_cases hid : t.NewId w.issued = 0
    · have hN : NewDefaultXGBGraphics t w
          = .ok { listeners := [], connection := some c, winId := t.NewId w.issued,
                  contextId := 0 }
              (send (.CreateWindow 0 (t.NewId w.issued) c.DefaultScreen.Root 50 50 400 350 0
                WindowClassCopyFromParent c.DefaultScreen.RootVisual 0 [])
                { w with issued := w.issued + 1 }) := by
        simp [NewDefaultXGBGraphics, NewXGBGraphics, initialise, hconn, Outcome.bind,
          createWindow, createContext, hid, DEFAULT_X, DEFAULT_Y, DEFAULT_WIDTH,
          DEFAULT_HEIGHT]
      have hgeo := ht (w.requests ++ [.CreateWindow 0 (t.NewId w.issued) c.DefaultScreen.Root
          50 50 400 350 0 WindowClassCopyFromParent c.DefaultScreen.RootVisual 0 []])
          (t.NewId w.issued) { X := 50, Y := 50, Width := 400, Height := 350 }
          (by simp [creationGeometry, List.foldl_append, geometryStep])
      exact ⟨_, _, _, hN, by simp [send],
        GetWindowSize_reply t _ c _ { X := 50, Y := 50, Width := 400, Height := 350 } none
          rfl hgeo⟩
    · have hN : NewDefaultXGBGraphics t w
          = .ok { listeners := [], connection := some c, winId := t.NewId w.issued,
                  contextId := t.NewId (w.issued + 1) }
              (send (.CreateGC (t.NewId (w.issued + 1)) (t.NewId w.issued) 0 [])
                { (send (.CreateWindow 0 (t.NewId w.issued) c.DefaultScreen.Root 50 50 400 350 0
                    WindowClassCopyFromParent c.DefaultScreen.RootVisual 0 [])
                    { w with issued := w.issued + 1 }) with issued := w.issued + 1 + 1 }) := by
        simp [NewDefaultXGBGraphics, NewXGBGraphics, initialise, hconn, Outcome.bind,
          createWindow, createContext, hid, DEFAULT_X, DEFAULT_Y, DEFAULT_WIDTH,
          DEFAULT_HEIGHT, send]
      have hgeo := ht (w.requests ++ [.CreateWindow 0 (t.NewId w.issued) c.DefaultScreen.Root
          50 50 400 350 0 WindowClassCopyFromParent c.DefaultScreen.RootVisual 0 []] ++
          [.CreateGC (t.NewId (w.issued + 1)) (t.NewId w.issued) 0 []]) (t.NewId w.issued)
          { X := 50, Y := 50, Width := 400, Height := 350 }
          (by simp [creationGeometry, List.foldl_append, geometryStep])
      exact ⟨_, _, _, hN, by simp [send],
        GetWindowSize_reply t _ c _ { X := 50, Y := 50, Width := 400, Height := 350 } none
          rfl hgeo⟩
  · intro this conn w0 reply err hc ha
    exact GetWindowSize_reply t this conn w0 reply err hc ha

/-- Witness of C9: on the fake transport, with DISPLAY set, the default window
answers (400, 350); on the transport of a resized window, a window created
400 by 350 answers the 800 by 600 of the reply, not its creation geometry. -/
theorem GetWindowSize_of_default_window_witness :
    (∃ g w1 w2, NewDefaultXGBGraphics fakeTransport world0 = .ok g w1
        ∧ Request.CreateWindow 0 g.winId conn0.DefaultScreen.Root 50 50 400 350 0
            WindowClassCopyFromParent conn0.DefaultScreen.RootVisual 0 [] ∈ w1.requests
        ∧ GetWindowSize fakeTransport g w1 = .ok { Width := 400, Height := 350 } w2)
      ∧ creationGeometry
          (send (.CreateWindow 0 100 1 50 50 400 350 0 0 2 0 []) world0).requests 100
          = some { X := 50, Y := 50, Width := 400, Height := 350 }
      ∧ GetWindowSize resizedTransport graphics0
            (send (.CreateWindow 0 100 1 50 50 400 350 0 0 2 0 []) world0)
          = .ok { Width := ((GetGeometryReply.mk 0 0 800 600).Width : Int),
                  Height := ((GetGeometryReply.mk 0 0 800 600).Height : Int) }
              (printlnIfError none "ERROR getting window size"
                (send (.GetGeometry graphics0.winId)
                  (send (.CreateWindow 0 100 1 50 50 400 350 0 0 2 0 []) world0))) :=
  ⟨(GetWindowSize_of_default_window fakeTransport).1 world0 conn0
      fakeTransport_answers_creation_geometry rfl,
    by decide,
    (GetWindowSize_of_default_window resizedTransport).2 graphics0 conn0
      (send (.CreateWindow 0 100 1 50 50 400 350 0 0 2 0 []) world0)
      (GetGeometryReply.mk 0 0 800 600) none rfl rfl⟩

end Gohotdraw
